import Mathlib

/-!
Shallow embedding of the two source files of the gtg repository slice:
  GTG/viewmanager/dbuswrapper.py  (D-Bus task wrapper)
  GTG/core/plugins/api.py         (plugin API)
Python values relevant to the D-Bus marshalling are modelled by the
inductive `PyVal`; Python truthiness, the `isinstance(v, list)` test and
the `v == None` test are modelled by `pyTruthy`, `isinstanceList` and
`pyEqNone`.  External objects (the requester, the view manager, the task
tree, GTK widgets, the unicodedata library, the filesystem) are
parameters of the definitions, since their code is not part of the
repository slice.
-/

namespace GTG

/-- A Python value as it appears in the dictionaries that the D-Bus
wrapper marshals: `none` is Python None, `dbusArray xs sig` is
`dbus.Array(xs, sig)` (which subclasses `list` in Python). -/
inductive PyVal where
  | none
  | str (s : String)
  | int (n : Int)
  | bool (b : Bool)
  | list (xs : List PyVal)
  | dbusArray (xs : List PyVal) (sig : String)

/-- Python truthiness of a `PyVal` (`bool(v)`): None, empty strings,
zero, False and empty lists are falsy. -/
def pyTruthy : PyVal → Bool
  | .none => false
  | .str s => !s.isEmpty
  | .int n => n != 0
  | .bool b => b
  | .list xs => !xs.isEmpty
  | .dbusArray xs _ => !xs.isEmpty

/-- `isinstance(v, list)`: true for Python lists; `dbus.Array`
subclasses `list`, so it also answers true. -/
def isinstanceList : PyVal → Bool
  | .list _ => true
  | .dbusArray _ _ => true
  | _ => false

/-- The Python test `v == None` on the values above: true exactly for
None (no value of these types compares equal to None). -/
def pyEqNone : PyVal → Bool
  | .none => true
  | _ => false

/-- The per-entry transformation performed by the loop body of
`dsanitize` in dbuswrapper.py:
  if not v and isinstance(v, list): replace v by dbus.Array([], "s")
  elif v == None: replace v by the empty string. -/
def sanitizeEntry (v : PyVal) : PyVal :=
  if !pyTruthy v && isinstanceList v then .dbusArray [] "s"
  else if pyEqNone v then .str ""
  else v

/-- `dsanitize(data)` from dbuswrapper.py: the in-place loop over
`data.items()` rewrites each value by `sanitizeEntry` and the dict is
returned. -/
def dsanitize (data : List (String × PyVal)) : List (String × PyVal) :=
  data.map fun kv => (kv.1, sanitizeEntry kv.2)

/-- A date object as the wrapper sees it: the wrapper only ever applies
`str(...)` to it, so the model keeps just the string rendering. -/
structure PyDate where
  render : String

/-- A task object as the wrapper sees it: the nine accessor results used
by `task_to_dict`. -/
structure Task where
  get_id : PyVal
  get_status : PyVal
  get_title : PyVal
  get_due_date : PyDate
  get_start_date : PyDate
  get_closed_date : PyDate
  get_tags_name : PyVal
  get_text : PyVal
  get_children : PyVal

/-- A `dbus.Dictionary(entries, signature)` value. -/
structure DbusDictionary where
  entries : List (String × PyVal)
  sigStr : String

/-- `task_to_dict(task)` from dbuswrapper.py: the literal dict of the
nine fields, sanitized by `dsanitize` and wrapped in a
`dbus.Dictionary` with signature sv. -/
def task_to_dict (task : Task) : DbusDictionary :=
  { entries := dsanitize
      [("id", task.get_id),
       ("status", task.get_status),
       ("title", task.get_title),
       ("duedate", .str task.get_due_date.render),
       ("startdate", .str task.get_start_date.render),
       ("donedate", .str task.get_closed_date.render),
       ("tags", task.get_tags_name),
       ("text", task.get_text),
       ("subtask", task.get_children)],
    sigStr := "sv" }

/-- The value domain named by claim C1: primitives, strings or lists
(everything except an already-typed `dbus.Array`). -/
def isPrimStrList : PyVal → Bool
  | .dbusArray _ _ => false
  | _ => true

/-- The per-value replacement as the claim words it: an empty-list value
becomes a typed empty D-Bus string array, a None value becomes the empty
string, every other value is unchanged. -/
def specSanitizeValue : PyVal → PyVal
  | .list [] => .dbusArray [] "s"
  | .none => .str ""
  | v => v

theorem sanitizeEntry_eq_spec (v : PyVal) (h : isPrimStrList v = true) :
    sanitizeEntry v = specSanitizeValue v := by
  cases v with
  | none => rfl
  | str s => simp [sanitizeEntry, specSanitizeValue, pyTruthy, isinstanceList, pyEqNone]
  | int n => simp [sanitizeEntry, specSanitizeValue, pyTruthy, isinstanceList, pyEqNone]
  | bool b => simp [sanitizeEntry, specSanitizeValue, pyTruthy, isinstanceList, pyEqNone]
  | list xs =>
      cases xs with
      | nil => rfl
      | cons x xs =>
          simp [sanitizeEntry, specSanitizeValue, pyTruthy, isinstanceList, pyEqNone]
  | dbusArray xs sig => simp [isPrimStrList] at h

theorem sanitizeEntry_ne_none (v : PyVal) : sanitizeEntry v ≠ PyVal.none := by
  cases v with
  | none => simp [sanitizeEntry, pyTruthy, isinstanceList, pyEqNone]
  | str s => simp [sanitizeEntry, pyTruthy, isinstanceList, pyEqNone]
  | int n => simp [sanitizeEntry, pyTruthy, isinstanceList, pyEqNone]
  | bool b => simp [sanitizeEntry, pyTruthy, isinstanceList, pyEqNone]
  | list xs =>
      cases xs <;> simp [sanitizeEntry, pyTruthy, isinstanceList, pyEqNone]
  | dbusArray xs sig =>
      cases xs <;> simp [sanitizeEntry, pyTruthy, isinstanceList, pyEqNone]

theorem sanitizeEntry_ne_emptyList (v : PyVal) : sanitizeEntry v ≠ PyVal.list [] := by
  cases v with
  | none => simp [sanitizeEntry, pyTruthy, isinstanceList, pyEqNone]
  | str s => simp [sanitizeEntry, pyTruthy, isinstanceList, pyEqNone]
  | int n => simp [sanitizeEntry, pyTruthy, isinstanceList, pyEqNone]
  | bool b => simp [sanitizeEntry, pyTruthy, isinstanceList, pyEqNone]
  | list xs =>
      cases xs <;> simp [sanitizeEntry, pyTruthy, isinstanceList, pyEqNone]
  | dbusArray xs sig =>
      cases xs <;> simp [sanitizeEntry, pyTruthy, isinstanceList, pyEqNone]

/-- Claim C1: for every flat dict whose values are primitives, strings or
lists, `dsanitize` keeps the keys and rewrites every empty-list value to a
typed empty D-Bus string array, every None value to the empty string, and
leaves every other value unchanged; and `task_to_dict` of any task yields
a dictionary with no None values and no (untyped) empty-list values. -/
theorem dsanitize_spec_and_task_to_dict_clean :
    (∀ data : List (String × PyVal),
      (∀ kv ∈ data, isPrimStrList kv.2 = true) →
      dsanitize data = data.map fun kv => (kv.1, specSanitizeValue kv.2)) ∧
    (∀ task : Task, ∀ kv ∈ (task_to_dict task).entries,
      kv.2 ≠ PyVal.none ∧ kv.2 ≠ PyVal.list []) := by
  constructor
  · intro data h
    unfold dsanitize
    apply List.map_congr_left
    intro kv hkv
    rw [sanitizeEntry_eq_spec kv.2 (h kv hkv)]
  · intro task kv hkv
    simp only [task_to_dict, dsanitize, List.mem_map] at hkv
    obtain ⟨kv0, _, rfl⟩ := hkv
    exact ⟨sanitizeEntry_ne_none kv0.2, sanitizeEntry_ne_emptyList kv0.2⟩

/-- A concrete task used to instantiate the universally quantified
claims about `task_to_dict`. -/
def sampleTask : Task :=
  { get_id := .str "1@1",
    get_status := .str "Active",
    get_title := .str "a title",
    get_due_date := ⟨"2026-01-01"⟩,
    get_start_date := ⟨""⟩,
    get_closed_date := ⟨""⟩,
    get_tags_name := .list [],
    get_text := .none,
    get_children := .list [.str "2@1"] }

/-- Witness for C1 at concrete inputs. -/
theorem dsanitize_spec_and_task_to_dict_clean_witness :
    dsanitize [("a", PyVal.none), ("b", PyVal.list []), ("c", PyVal.int 5)] =
      [("a", PyVal.str ""), ("b", PyVal.dbusArray [] "s"), ("c", PyVal.int 5)] ∧
    ((("tags", PyVal.dbusArray [] "s") : String × PyVal).2 ≠ PyVal.none ∧
      (("tags", PyVal.dbusArray [] "s") : String × PyVal).2 ≠ PyVal.list []) :=
  ⟨(dsanitize_spec_and_task_to_dict_clean.1
      [("a", PyVal.none), ("b", PyVal.list []), ("c", PyVal.int 5)]
      (by intro kv hkv; fin_cases hkv <;> rfl)).trans rfl,
   dsanitize_spec_and_task_to_dict_clean.2 sampleTask
      ("tags", PyVal.dbusArray [] "s")
      (by simp [sampleTask, task_to_dict, dsanitize, sanitizeEntry,
                pyTruthy, isinstanceList, pyEqNone])⟩

/-- Claim C2: `task_to_dict` returns a flat dictionary with exactly the
keys id, status, title, duedate, startdate, donedate, tags, text, subtask;
the id, status, title, tags, text and subtask values are the sanitized
accessor results and the three date values are the string renderings of
the due, start and closed dates. -/
theorem task_to_dict_fields (task : Task) :
    (task_to_dict task).entries.map Prod.fst =
      ["id", "status", "title", "duedate", "startdate", "donedate",
       "tags", "text", "subtask"] ∧
    (task_to_dict task).entries =
      [("id", sanitizeEntry task.get_id),
       ("status", sanitizeEntry task.get_status),
       ("title", sanitizeEntry task.get_title),
       ("duedate", .str task.get_due_date.render),
       ("startdate", .str task.get_start_date.render),
       ("donedate", .str task.get_closed_date.render),
       ("tags", sanitizeEntry task.get_tags_name),
       ("text", sanitizeEntry task.get_text),
       ("subtask", sanitizeEntry task.get_children)] := by
  have hstr : ∀ s : String, sanitizeEntry (.str s) = .str s := by
    intro s
    simp [sanitizeEntry, pyTruthy, isinstanceList, pyEqNone]
  refine ⟨rfl, ?_⟩
  simp [task_to_dict, dsanitize, hstr]

/-!
The `DBusTaskWrapper` class.  Its two attributes set in `__init__` and
never reassigned are `self.req` (the requester) and `self.view_manager`;
both are external objects whose code is not in this slice, so the
requester is modelled as a record of response functions (`Requester`),
the task tree returned by `get_custom_tasks_tree` as a value of an
abstract type with the two operations the wrapper calls on it
(`TreeOps`), and the view manager as an opaque value.  The methods that
only trigger effects on the external objects additionally report the
external invocation they perform as an `ExtCall` trace.
-/

/-- A Python exception class, as far as the embedded code distinguishes
them. -/
inductive PyExc where
  | typeError
  | ioError
  | unpicklingError
  | indexError
  | externalError
deriving DecidableEq

/-- The requester object attached to the wrapper: the response functions
of the calls the embedded methods make on `self.req`.  Task statuses
arrive at `get_tasks_list` as ASCII byte strings (lists of byte
values). -/
structure Requester (τ θ : Type) where
  get_tasks_list : List (List Nat) → List τ
  get_task : τ → Task
  has_task : τ → Bool
  get_custom_tasks_tree : θ

/-- The two operations the wrapper calls on the tree object returned by
`get_custom_tasks_tree`. -/
structure TreeOps (τ θ : Type) where
  apply_filter : θ → String → θ
  get_all_keys : θ → List τ

/-- The state of a `DBusTaskWrapper` instance: the `self.req` and
`self.view_manager` attributes set in `__init__`. -/
structure DBusTaskWrapper (τ θ ν : Type) where
  req : Requester τ θ
  view_manager : ν

/-- An invocation of an external object performed by a wrapper method. -/
inductive ExtCall (τ : Type) where
  | req_has_task (tid : τ)
  | req_delete_task (tid : τ)
  | vm_hide_browser
  | vm_show_browser

/-- Whitespace for Python str.strip: the characters whose removal
`strip()` performs (ASCII whitespace, the C1 separator block, NEL,
NBSP and the Unicode space characters). -/
def pyIsSpace (c : Char) : Bool :=
  let n := c.toNat
  n == 9 || n == 10 || n == 11 || n == 12 || n == 13 || n == 32 ||
  (28 ≤ n && n ≤ 31) || n == 133 || n == 160 || n == 5760 ||
  (8192 ≤ n && n ≤ 8202) || n == 8232 || n == 8233 || n == 8239 ||
  n == 8287 || n == 12288

/-- Python `s.strip()`: drop leading and trailing whitespace. -/
def pyStrip (s : String) : String :=
  ⟨((s.data.dropWhile pyIsSpace).reverse.dropWhile pyIsSpace).reverse⟩

/-- Python `u.encode("ascii", "ignore")`: the bytes of the characters of
`u` below 128, every other character dropped. -/
def pyEncodeAsciiIgnore (s : String) : List Nat :=
  (s.data.filter fun c => c.toNat < 128).map Char.toNat

/-- `DBusTaskWrapper.get_task_ids(status_string)` from dbuswrapper.py:
split the string on commas, strip each piece, NFKD-normalize it with the
external `unicodedata.normalize` (the parameter `nfkd`), encode it to
ASCII ignoring errors, and pass the list to the requester. -/
def DBusTaskWrapper.get_task_ids (w : DBusTaskWrapper τ θ ν)
    (nfkd : String → String) (status_string : String) : List τ :=
  let status := (status_string.splitOn ",").map pyStrip
  let status := status.map fun s => pyEncodeAsciiIgnore (nfkd s)
  w.req.get_tasks_list status

/-- `DBusTaskWrapper.get_task(tid)` from dbuswrapper.py. -/
def DBusTaskWrapper.get_task (w : DBusTaskWrapper τ θ ν) (tid : τ) :
    DbusDictionary :=
  task_to_dict (w.req.get_task tid)

/-- Python call semantics for the method `get_task_ids`: its signature
declares the required positional parameter `status_string` with no
default, so a call that passes no argument (modelled by `none`) raises
TypeError before the body runs. -/
def DBusTaskWrapper.call_get_task_ids (w : DBusTaskWrapper τ θ ν)
    (nfkd : String → String) : Option String → Except PyExc (List τ)
  | Option.none => .error .typeError
  | Option.some s => .ok (w.get_task_ids nfkd s)

/-- `DBusTaskWrapper.get_tasks()` from dbuswrapper.py: the body is
`[self.get_task(id) for id in self.get_task_ids()]`; the inner call
passes no argument to `get_task_ids`. -/
def DBusTaskWrapper.get_tasks (w : DBusTaskWrapper τ θ ν)
    (nfkd : String → String) : Except PyExc (List DbusDictionary) := do
  let ids ← w.call_get_task_ids nfkd Option.none
  return ids.map w.get_task

/-- `DBusTaskWrapper.get_task_ids_filtered(filters)` from
dbuswrapper.py: fetch the custom tasks tree, apply each filter in order,
return all keys. -/
def DBusTaskWrapper.get_task_ids_filtered (w : DBusTaskWrapper τ θ ν)
    (ops : TreeOps τ θ) (filters : List String) : List τ :=
  let tree := w.req.get_custom_tasks_tree
  let tree := filters.foldl ops.apply_filter tree
  ops.get_all_keys tree

/-- The two shapes `get_tasks_filtered` can return: a list of task data
dicts, or `dbus.Array([], "s")` when the filtered id list is empty. -/
inductive TasksFilteredResult where
  | dicts (ds : List DbusDictionary)
  | emptyArray (sig : String)

/-- `DBusTaskWrapper.get_tasks_filtered(filters)` from dbuswrapper.py. -/
def DBusTaskWrapper.get_tasks_filtered (w : DBusTaskWrapper τ θ ν)
    (ops : TreeOps τ θ) (filters : List String) : TasksFilteredResult :=
  let tasks := w.get_task_ids_filtered ops filters
  if !tasks.isEmpty then .dicts (tasks.map w.get_task)
  else .emptyArray "s"

/-- `DBusTaskWrapper.get_active_tasks(tags)` from dbuswrapper.py: the
body is `self.get_tasks_filtered(["active", "workable"])` and never
reads `tags`. -/
def DBusTaskWrapper.get_active_tasks (w : DBusTaskWrapper τ θ ν)
    (ops : TreeOps τ θ) (tags : List String) : TasksFilteredResult :=
  w.get_tasks_filtered ops ["active", "workable"]

/-- `DBusTaskWrapper.has_task(tid)` from dbuswrapper.py: returns
`self.req.has_task(tid)`; the result, the wrapper state after the call
and the external invocations performed. -/
def DBusTaskWrapper.has_task (w : DBusTaskWrapper τ θ ν) (tid : τ) :
    Bool × DBusTaskWrapper τ θ ν × List (ExtCall τ) :=
  (w.req.has_task tid, w, [ExtCall.req_has_task tid])

/-- `DBusTaskWrapper.delete_task(tid)` from dbuswrapper.py: calls
`self.req.delete_task(tid)` and returns None. -/
def DBusTaskWrapper.delete_task (w : DBusTaskWrapper τ θ ν) (tid : τ) :
    Unit × DBusTaskWrapper τ θ ν × List (ExtCall τ) :=
  ((), w, [ExtCall.req_delete_task tid])

/-- `DBusTaskWrapper.hide_task_browser()` from dbuswrapper.py: calls
`self.view_manager.hide_browser()`. -/
def DBusTaskWrapper.hide_task_browser (w : DBusTaskWrapper τ θ ν) :
    Unit × DBusTaskWrapper τ θ ν × List (ExtCall τ) :=
  ((), w, [ExtCall.vm_hide_browser])

/-- `DBusTaskWrapper.show_task_browser()` from dbuswrapper.py: calls
`self.view_manager.show_browser()`. -/
def DBusTaskWrapper.show_task_browser (w : DBusTaskWrapper τ θ ν) :
    Unit × DBusTaskWrapper τ θ ν × List (ExtCall τ) :=
  ((), w, [ExtCall.vm_show_browser])

/-- Claim C4: `get_task_ids` splits its input on commas, strips each
piece, NFKD-normalizes and ASCII-encodes it dropping non-ASCII
characters, and returns exactly the requester result `get_tasks_list`
applied to that status list. -/
theorem get_task_ids_pipeline (w : DBusTaskWrapper τ θ ν)
    (nfkd : String → String) (status_string : String) :
    w.get_task_ids nfkd status_string =
      w.req.get_tasks_list ((status_string.splitOn ",").map
        fun piece => pyEncodeAsciiIgnore (nfkd (pyStrip piece))) := by
  show w.req.get_tasks_list (List.map (fun s => pyEncodeAsciiIgnore (nfkd s))
    (List.map pyStrip (status_string.splitOn ","))) = _
  rw [List.map_map]
  rfl

/-- Claim C3 (refuted as stated): every call of `get_tasks` raises
TypeError, because the body calls `self.get_task_ids()` without the
required `status_string` argument. -/
theorem get_tasks_always_raises (w : DBusTaskWrapper τ θ ν)
    (nfkd : String → String) :
    w.get_tasks nfkd = .error PyExc.typeError := rfl

/-- Claim C7: `has_task` returns exactly the requester result for the
tid and performs exactly that requester call; `delete_task`,
`hide_task_browser` and `show_task_browser` perform exactly the
corresponding requester or view-manager call; none of them changes the
wrapper state. -/
theorem passthrough_methods (w : DBusTaskWrapper τ θ ν) (tid : τ) :
    w.has_task tid = (w.req.has_task tid, w, [ExtCall.req_has_task tid]) ∧
    w.delete_task tid = ((), w, [ExtCall.req_delete_task tid]) ∧
    w.hide_task_browser = ((), w, [ExtCall.vm_hide_browser]) ∧
    w.show_task_browser = ((), w, [ExtCall.vm_show_browser]) :=
  ⟨rfl, rfl, rfl, rfl⟩

/-- Claim C8: `get_active_tasks` never reads its `tags` argument: any
two calls on the same wrapper agree, and both equal
`get_tasks_filtered(["active", "workable"])`. -/
theorem get_active_tasks_ignores_tags (w : DBusTaskWrapper τ θ ν)
    (ops : TreeOps τ θ) (tags1 tags2 : List String) :
    w.get_active_tasks ops tags1 = w.get_active_tasks ops tags2 ∧
    w.get_active_tasks ops tags1 =
      w.get_tasks_filtered ops ["active", "workable"] :=
  ⟨rfl, rfl⟩

/-!
The `PluginAPI` class of GTG/core/plugins/api.py.  Of its attributes the
embedded methods touch `self.__task_id` (the task id of the editor, or
None for a browser API), `self.__builder` (the GTK builder, modelled as
a lookup that may itself raise) and `self.taskwidget_widg` (the list of
widgets added to the task editor).  GTK widgets are values of an
abstract type `W`; the effect of `container.remove(widget)` on the GTK
tree and the Python equality test `widg_id == widget` are external and
arrive as parameters. -/
structure PluginAPI (W : Type) where
  task_id : PyVal
  builder : String → Except PyExc (Option W)
  taskwidget_widg : List W

/-- `PluginAPI.is_editor()`: `bool(self.__task_id)`. -/
def PluginAPI.is_editor (api : PluginAPI W) : Bool :=
  pyTruthy api.task_id

/-- `PluginAPI.is_browser()`: `not self.is_editor()`. -/
def PluginAPI.is_browser (api : PluginAPI W) : Bool :=
  !api.is_editor

/-- Python `xs.pop(i)`: negative indices count from the end; an index
out of range raises IndexError.  Returns the popped element and the
remaining list. -/
def pyListPop (xs : List W) (i : Int) : Except PyExc (W × List W) :=
  let j := if i < 0 then i + xs.length else i
  if h : 0 ≤ j ∧ j.toNat < xs.length then
    .ok (xs.get ⟨j.toNat, h.2⟩, xs.take j.toNat ++ xs.drop (j.toNat + 1))
  else .error .indexError

/-- Python `xs.pop(v)` for an arbitrary value `v`: list indices must be
integers (True and False count as 1 and 0), anything else raises
TypeError. -/
def pyListPopVal (xs : List W) : PyVal → Except PyExc (W × List W)
  | .int i => pyListPop xs i
  | .bool b => pyListPop xs (if b then 1 else 0)
  | _ => .error .typeError

/-- The body of the try block of `remove_widget_from_taskeditor`:
`wi = self.__builder.get_object("vbox4")`, then
`if wi and widg_id in self.taskwidget_widg:
   wi.remove(self.taskwidget_widg.pop(widg_id))`.
The argument `self.taskwidget_widg.pop(widg_id)` is evaluated before
`wi.remove`, so a failure of the GTK call leaves the list already
popped.  Returns the state reached and the exception raised, if any.
`memEq v w` is the Python test `v == w` used by `in`; `gtkRemove wi w`
is the external GTK call, which may raise. -/
def removeBody (gtkRemove : W → W → Except PyExc Unit)
    (memEq : PyVal → W → Bool) (api : PluginAPI W) (widg_id : PyVal) :
    PluginAPI W × Option PyExc :=
  match api.builder "vbox4" with
  | .error e => (api, some e)
  | .ok Option.none => (api, Option.none)
  | .ok (Option.some wi) =>
    if api.taskwidget_widg.any (memEq widg_id) then
      match pyListPopVal api.taskwidget_widg widg_id with
      | .error e => (api, some e)
      | .ok (w, rest) =>
        let popped := { api with taskwidget_widg := rest }
        match gtkRemove wi w with
        | .error e => (popped, some e)
        | .ok _ => (popped, Option.none)
    else (api, Option.none)

/-- `PluginAPI.remove_widget_from_taskeditor(widg_id)` from api.py: the
guard `if self.is_editor() and widg_id:` skips everything otherwise; the
body runs inside `try: ... except Exception: log.exception(...)`, so any
exception of the body is swallowed after logging and the method returns
normally with the state the body reached. -/
def PluginAPI.remove_widget_from_taskeditor
    (gtkRemove : W → W → Except PyExc Unit) (memEq : PyVal → W → Bool)
    (api : PluginAPI W) (widg_id : PyVal) : Except PyExc (PluginAPI W) :=
  if api.is_editor && pyTruthy widg_id then
    .ok (removeBody gtkRemove memEq api widg_id).1
  else .ok api

/-- Claim C10: `is_browser` is exactly the boolean negation of
`is_editor`, so at every state exactly one of the two predicates
holds. -/
theorem is_browser_not_is_editor (api : PluginAPI W) :
    api.is_browser = !api.is_editor ∧
    Xor' (api.is_browser = true) (api.is_editor = true) := by
  refine ⟨rfl, ?_⟩
  cases h : api.is_editor <;>
    simp [Xor', PluginAPI.is_browser, h]

/-- Claim C6: `remove_widget_from_taskeditor` never raises (every run
returns normally), and when the API is not an editor or `widg_id` is
falsy the state is returned unchanged. -/
theorem remove_widget_from_taskeditor_safe
    (gtkRemove : W → W → Except PyExc Unit) (memEq : PyVal → W → Bool)
    (api : PluginAPI W) (widg_id : PyVal) :
    (∃ a, api.remove_widget_from_taskeditor gtkRemove memEq widg_id = .ok a) ∧
    (¬(api.is_editor = true ∧ pyTruthy widg_id = true) →
      api.remove_widget_from_taskeditor gtkRemove memEq widg_id = .ok api) := by
  constructor
  · unfold PluginAPI.remove_widget_from_taskeditor
    by_cases h : (api.is_editor && pyTruthy widg_id) = true
    · exact ⟨(removeBody gtkRemove memEq api widg_id).1, by simp [h]⟩
    · exact ⟨api, by simp [h]⟩
  · intro h
    unfold PluginAPI.remove_widget_from_taskeditor
    have : (api.is_editor && pyTruthy widg_id) = false := by
      cases he : api.is_editor with
      | false => simp [he]
      | true =>
          cases hw : pyTruthy widg_id with
          | false => simp [he, hw]
          | true => exact absurd ⟨he, hw⟩ h
    simp [this]

/-- A concrete browser-mode `PluginAPI` state over `W := Unit`. -/
def sampleBrowserAPI : PluginAPI Unit :=
  { task_id := .none,
    builder := fun _ => .ok Option.none,
    taskwidget_widg := [] }

/-- Witness for C6 at a concrete state: a browser API ignores the
removal request and returns its state unchanged. -/
theorem remove_widget_from_taskeditor_safe_witness :
    sampleBrowserAPI.remove_widget_from_taskeditor
      (fun _ _ => .ok ()) (fun _ _ => false) (PyVal.int 5) =
      .ok sampleBrowserAPI :=
  (remove_widget_from_taskeditor_safe (fun _ _ => .ok ()) (fun _ _ => false)
    sampleBrowserAPI (PyVal.int 5)).2
    (by simp [sampleBrowserAPI, PluginAPI.is_editor, pyTruthy])

/-!
Configuration persistence of api.py.  The filesystem is modelled as a
map from paths to file contents: a path may hold no file (opening
raises), an unreadable or unpicklable file (reading or `pickle.load`
raises), or a pickled dict.  `plugin_configuration_dir` comes from
GTG/core/dirs.py, which is not part of this slice, so it is a parameter;
`os.path.join` of a directory and a plain file name is modelled by
`path_join`.  Python dicts are modelled as key-ordered association
lists: assignment to a present key updates it in place, assignment to an
absent key appends it. -/
inductive FileContent (V : Type) where
  | absent
  | corrupt
  | pickled (item : List (String × V))

/-- `os.path.join(dirname, filename)` for a relative file name. -/
def path_join (dirname filename : String) : String :=
  dirname ++ "/" ++ filename

/-- Python dict assignment `d[k] = v`: update the value in place when
the key is present, append the pair otherwise. -/
def dictSet (d : List (String × V)) (k : String) (v : V) :
    List (String × V) :=
  if d.any fun kv => kv.1 = k then
    d.map fun kv => if kv.1 = k then (kv.1, v) else kv
  else d ++ [(k, v)]

/-- Python `d.update(item)`: assign every pair of `item` into `d` in
order. -/
def dictUpdate (d item : List (String × V)) : List (String × V) :=
  item.foldl (fun acc kv => dictSet acc kv.1 kv.2) d

/-- Python `d[k]` as an optional lookup (first matching key). -/
def dictLookup (d : List (String × V)) (k : String) : Option V :=
  (d.find? fun kv => kv.1 = k).map fun kv => kv.2

/-- `PluginAPI.load_configuration_object(plugin_name, filename,
default_values)` from api.py: start from a copy of the defaults (or an
empty dict), compute the path, and inside `try: ... except Exception:
pass` open the file, unpickle it and update the config with the result.
The parameter `pcd` is the external `plugin_configuration_dir` and `fs`
the filesystem.  Returns `Except` so that an escaping exception would be
visible; the surrounding try/except turns every failure into a normal
return. -/
def load_configuration_object (pcd : String → String)
    (fs : String → FileContent V) (plugin_name filename : String)
    (default_values : Option (List (String × V))) :
    Except PyExc (List (String × V)) :=
  let config := match default_values with
    | Option.some d => d
    | Option.none => []
  let dirname := pcd plugin_name
  let path := path_join dirname filename
  match fs path with
  | .absent => .ok config
  | .corrupt => .ok config
  | .pickled item => .ok (dictUpdate config item)

/-- `PluginAPI.save_configuration_object(plugin_name, filename, item)`
from api.py: make the configuration directory if needed (directories are
not part of the file-content map, so the write then succeeds) and dump
the pickled `item` at the joined path.  Returns the updated
filesystem. -/
def save_configuration_object (pcd : String → String)
    (fs : String → FileContent V) (plugin_name filename : String)
    (item : List (String × V)) : String → FileContent V :=
  let path := path_join (pcd plugin_name) filename
  fun p => if p = path then .pickled item else fs p

theorem load_configuration_object_eq (pcd : String → String)
    (fs : String → FileContent V) (plugin_name filename : String)
    (default_values : Option (List (String × V))) :
    load_configuration_object pcd fs plugin_name filename default_values =
      .ok (match fs (path_join (pcd plugin_name) filename) with
        | .pickled item => dictUpdate (default_values.getD []) item
        | _ => default_values.getD []) := by
  cases default_values <;>
    cases h : fs (path_join (pcd plugin_name) filename) <;>
      simp [load_configuration_object, h]

/-- Claim C5: `load_configuration_object` never raises: it returns
normally for every filesystem, with the defaults (or the empty dict)
when opening, reading or unpickling fails, and with the defaults updated
by the unpickled entries on success. -/
theorem load_configuration_object_total (pcd : String → String)
    (fs : String → FileContent V) (plugin_name filename : String)
    (default_values : Option (List (String × V))) :
    load_configuration_object pcd fs plugin_name filename default_values =
      .ok (match fs (path_join (pcd plugin_name) filename) with
        | .pickled item => dictUpdate (default_values.getD []) item
        | _ => default_values.getD []) :=
  load_configuration_object_eq pcd fs plugin_name filename default_values

theorem find?_map_overwrite (k1 : String) (v1 : V) (k : String)
    (hk : k ≠ k1) (d : List (String × V)) :
    List.find? (fun kv => kv.1 = k)
        (d.map fun kv => if kv.1 = k1 then (kv.1, v1) else kv) =
      List.find? (fun kv => kv.1 = k) d := by
  induction d with
  | nil => rfl
  | cons kv tl ih =>
      by_cases h2 : kv.1 = k
      · have h1 : kv.1 ≠ k1 := fun hh => hk (h2.symm.trans hh)
        rw [List.map_cons, if_neg h1,
          List.find?_cons_of_pos _ (by simpa using h2),
          List.find?_cons_of_pos _ (by simpa using h2)]
      · have hfst : (if kv.1 = k1 then (kv.1, v1) else kv).1 = kv.1 := by
          split <;> rfl
        rw [List.map_cons,
          List.find?_cons_of_neg _ (by simp [hfst, h2]),
          List.find?_cons_of_neg _ (by simpa using h2)]
        exact ih

theorem find?_map_overwrite_self (k : String) (v : V)
    (d : List (String × V))
    (hany : (d.any fun kv => kv.1 = k) = true) :
    Option.map (fun kv => kv.2)
        (List.find? (fun kv => kv.1 = k)
          (d.map fun kv => if kv.1 = k then (kv.1, v) else kv)) =
      some v := by
  induction d with
  | nil => simp at hany
  | cons kv tl ih =>
      by_cases h1 : kv.1 = k
      · rw [List.map_cons, if_pos h1,
          List.find?_cons_of_pos _ (by simpa using h1)]
        rfl
      · have hfst : (if kv.1 = k then (kv.1, v) else kv).1 = kv.1 := by
          split <;> rfl
        rw [List.map_cons,
          List.find?_cons_of_neg _ (by simp [hfst, h1])]
        apply ih
        simpa [h1] using hany

theorem dictSet_lookup_ne (d : List (String × V)) (k1 : String) (v1 : V)
    (k : String) (hk : k ≠ k1) :
    dictLookup (dictSet d k1 v1) k = dictLookup d k := by
  by_cases hany : (d.any fun kv => kv.1 = k1) = true
  · rw [dictLookup, dictSet, if_pos hany, find?_map_overwrite k1 v1 k hk d]
    rfl
  · rw [dictLookup, dictSet, if_neg hany, List.find?_append]
    have hsingle : (([(k1, v1)] : List (String × V)).find?
        fun kv => kv.1 = k) = Option.none := by
      rw [List.find?_eq_none]
      intro x hx
      rcases List.mem_singleton.mp hx with rfl
      simpa using fun hh => hk hh.symm
    rw [hsingle]
    cases hfind : List.find? (fun kv => kv.1 = k) d <;>
      simp [dictLookup, hfind]

theorem dictSet_lookup_eq (d : List (String × V)) (k : String) (v : V) :
    dictLookup (dictSet d k v) k = some v := by
  by_cases hany : (d.any fun kv => kv.1 = k) = true
  · rw [dictLookup, dictSet, if_pos hany]
    exact find?_map_overwrite_self k v d hany
  · rw [dictLookup, dictSet, if_neg hany, List.find?_append]
    have hnone : (List.find? (fun kv => kv.1 = k) d) = Option.none := by
      rw [List.find?_eq_none]
      intro x hx hpx
      exact hany (List.any_eq_true.mpr ⟨x, hx, hpx⟩)
    rw [hnone]
    simp

theorem dictUpdate_lookup_absent (item : List (String × V)) (k : String) :
    k ∉ item.map Prod.fst →
    ∀ d : List (String × V),
      dictLookup (dictUpdate d item) k = dictLookup d k := by
  induction item with
  | nil => intro _ d; rfl
  | cons hd tl ih =>
      intro hk d
      simp only [List.map_cons, List.mem_cons, not_or] at hk
      show dictLookup (dictUpdate (dictSet d hd.1 hd.2) tl) k = _
      rw [ih hk.2 (dictSet d hd.1 hd.2),
        dictSet_lookup_ne d hd.1 hd.2 k hk.1]

theorem dictUpdate_lookup_mem (item : List (String × V)) (kv : String × V) :
    (item.map Prod.fst).Nodup → kv ∈ item →
    ∀ d : List (String × V),
      dictLookup (dictUpdate d item) kv.1 = some kv.2 := by
  induction item with
  | nil => intro _ h; cases h
  | cons hd tl ih =>
      intro hnd hkv d
      simp only [List.map_cons, List.nodup_cons] at hnd
      rcases List.mem_cons.mp hkv with heq | hmem
      · show dictLookup (dictUpdate (dictSet d hd.1 hd.2) tl) kv.1 = _
        rw [heq, dictUpdate_lookup_absent tl hd.1 hnd.1 (dictSet d hd.1 hd.2),
          dictSet_lookup_eq]
      · show dictLookup (dictUpdate (dictSet d hd.1 hd.2) tl) kv.1 = _
        exact ih hnd.2 hmem (dictSet d hd.1 hd.2)

/-- Claim C9: saving a configuration dict and loading it back with the
same plugin name and file name returns normally with the defaults
updated by the saved entries: every key-value pair of the saved dict is
present in the result, and every key absent from the saved dict keeps
its default binding. -/
theorem save_load_roundtrip (pcd : String → String)
    (fs : String → FileContent V) (plugin_name filename : String)
    (item : List (String × V))
    (default_values : Option (List (String × V)))
    (hnd : (item.map Prod.fst).Nodup) :
    load_configuration_object pcd
        (save_configuration_object pcd fs plugin_name filename item)
        plugin_name filename default_values =
      .ok (dictUpdate (default_values.getD []) item) ∧
    (∀ kv ∈ item,
      dictLookup (dictUpdate (default_values.getD []) item) kv.1 =
        some kv.2) ∧
    (∀ k, k ∉ item.map Prod.fst →
      dictLookup (dictUpdate (default_values.getD []) item) k =
        dictLookup (default_values.getD []) k) := by
  refine ⟨?_, ?_, ?_⟩
  · rw [load_configuration_object_eq]
    have : save_configuration_object pcd fs plugin_name filename item
        (path_join (pcd plugin_name) filename) = .pickled item := by
      simp [save_configuration_object]
    rw [this]
  · intro kv hkv
    exact dictUpdate_lookup_mem item kv hnd hkv (default_values.getD [])
  · intro k hk
    exact dictUpdate_lookup_absent item k hk (default_values.getD [])

/-- Witness for C9 at a concrete filesystem, item and defaults. -/
theorem save_load_roundtrip_witness :
    load_configuration_object (fun _ => "cfgdir")
        (save_configuration_object (V := Nat) (fun _ => "cfgdir")
          (fun _ => FileContent.absent) "myplugin" "prefs.pickle"
          [("a", 1), ("b", 2)])
        "myplugin" "prefs.pickle" (some [("a", 0), ("c", 3)]) =
      .ok (dictUpdate [("a", 0), ("c", 3)] [("a", 1), ("b", 2)]) ∧
    (∀ kv ∈ [("a", 1), ("b", 2)],
      dictLookup (dictUpdate [("a", 0), ("c", 3)] [("a", 1), ("b", 2)]) kv.1 =
        some kv.2) ∧
    (∀ k, k ∉ ([("a", 1), ("b", 2)] : List (String × Nat)).map Prod.fst →
      dictLookup (dictUpdate [("a", 0), ("c", 3)] [("a", 1), ("b", 2)]) k =
        dictLookup [("a", 0), ("c", 3)] k) :=
  save_load_roundtrip (fun _ => "cfgdir") (fun _ => FileContent.absent)
    "myplugin" "prefs.pickle" [("a", 1), ("b", 2)]
    (some [("a", 0), ("c", 3)]) (by decide)

end GTG
